import Mathlib

/-
Verification development for the Music-Recommendation-System data-pipeline
scripts.  The Python sources (src/upload_to_hdfs.py,
src/upload_to_hdfs_alternative.py, src/load_hdfs_data.py) are shallowly
embedded below: every external effect (subprocess invocation, filesystem
glob, file read, HDFS client call) is supplied by an explicit environment
record, and each script becomes a pure function from that environment to
the trace of commands it issues, the lines it prints, and its result.
-/

/-- Result of one subprocess.run invocation: exit status plus captured
standard output and standard error (capture_output=True, text=True). -/
structure CmdResult where
  exitCode : Nat
  stdout : String
  stderr : String
deriving Repr, DecidableEq

/-- Environment of the CLI transfer script (upload_to_hdfs.py).  `run` gives
the outcome of each external command; `probeTimeout` tells whether the
single timed connectivity probe exceeds its 10-second timeout.  The three
`..Exists` flags record the state of the remote world (staged file in the
container, remote destination directory, final remote file); the embedded
code never consults them, mirroring the source, which performs no
existence pre-checks — they exist so that specification statements can
speak about runs in which a destination already exists. -/
structure CliEnv where
  localExists : Bool
  stagedExists : Bool
  remoteDirExists : Bool
  remoteFileExists : Bool
  probeTimeout : Bool
  run : List String → CmdResult

/-- Lower-case a string character by character (models Python str.lower on
the ASCII error messages involved). -/
def strLower (s : String) : String :=
  String.mk (s.toList.map Char.toLower)

/-- Substring containment test (models the Python `in` operator on str). -/
def strContains (s pat : String) : Bool :=
  let cs := s.toList
  let ps := pat.toList
  (List.range (cs.length + 1)).any fun i => (cs.drop i).take ps.length == ps

/-- The docker cp command of Step 1 (upload_to_hdfs.py lines 22-26). -/
def copy_cmd (localAbs localName : String) : List String :=
  ["docker", "cp", localAbs, "namenode:/tmp/" ++ localName]

/-- The hdfs mkdir command of Step 2 (upload_to_hdfs.py lines 37-40). -/
def mkdir_cmd : List String :=
  ["docker", "exec", "namenode", "hdfs", "dfs", "-mkdir", "-p", "/data"]

/-- The hdfs put command of Step 3 (upload_to_hdfs.py lines 52-57). -/
def upload_cmd (localName hdfs_path : String) : List String :=
  ["docker", "exec", "namenode", "hdfs", "dfs", "-put", "/tmp/" ++ localName, hdfs_path]

/-- The hdfs ls command of Step 4 (upload_to_hdfs.py lines 68-71). -/
def verify_cmd (hdfs_path : String) : List String :=
  ["docker", "exec", "namenode", "hdfs", "dfs", "-ls", hdfs_path]

/-- The rm command of Step 5 (upload_to_hdfs.py lines 82-85). -/
def cleanup_cmd (localName : String) : List String :=
  ["docker", "exec", "namenode", "rm", "/tmp/" ++ localName]

/-- The docker ps command of the connectivity check (line 102). -/
def ps_cmd : List String :=
  ["docker", "ps", "--filter", "name=namenode", "--format", "\x7b\x7b.Names\x7d\x7d"]

/-- The hdfs root-listing probe of the connectivity check (line 116). -/
def probe_cmd : List String :=
  ["docker", "exec", "namenode", "hdfs", "dfs", "-ls", "/"]

/-- Python exceptions escaping upload_csv_to_hdfs: FileNotFoundError, or
subprocess.CalledProcessError carrying the failed command, its exit status
and its captured standard error. -/
inductive PyError where
  | fileNotFound (msg : String)
  | calledProcessError (cmd : List String) (exitCode : Nat) (stderr : String)
deriving Repr, DecidableEq

/-- The str() rendering of an exception, as printed by the main block. -/
def PyError.message : PyError → String
  | .fileNotFound m => m
  | .calledProcessError c n _ =>
      "Command " ++ toString c ++ " returned non-zero exit status " ++ toString n ++ "."

/-- Observable outcome of one call to upload_csv_to_hdfs: the external
commands issued in order, the lines printed, and either the returned HDFS
path or the escaping exception. -/
structure UploadRun where
  trace : List (List String)
  printed : List String
  result : Except PyError String

/-- Shallow embedding of upload_csv_to_hdfs (upload_to_hdfs.py lines 5-94).
`lp` is the local_file_path argument, `la` the value of
str(local_file.absolute()), `ln` the value of local_file.name, `hp` the
hdfs_path argument. -/
def upload_csv_to_hdfs (env : CliEnv) (lp la ln hp : String) : UploadRun :=
  if env.localExists = false then
    ⟨[], [], .error (.fileNotFound ("Local file not found: " ++ lp))⟩
  else
    let hdr := ["Uploading " ++ lp ++ " to HDFS: " ++ hp,
                "Step 1: Copying file to namenode container..."]
    let c1 := copy_cmd la ln
    let r1 := env.run c1
    if r1.exitCode ≠ 0 then
      ⟨[c1], hdr ++ ["Error copying file to container: " ++ r1.stderr],
       .error (.calledProcessError c1 r1.exitCode r1.stderr)⟩
    else
      let p1 := hdr ++ ["✓ File copied to container", "Step 2: Creating HDFS directory..."]
      let r2 := env.run mkdir_cmd
      let p2 := p1 ++
        (if r2.exitCode ≠ 0 then
           (if strContains (strLower r2.stderr) "already exists" then []
            else ["Warning: " ++ r2.stderr])
         else ["✓ HDFS directory created/verified"]) ++
        ["Step 3: Uploading file to HDFS..."]
      let c3 := upload_cmd ln hp
      let r3 := env.run c3
      if r3.exitCode ≠ 0 then
        ⟨[c1, mkdir_cmd, c3], p2 ++ ["Error uploading to HDFS: " ++ r3.stderr],
         .error (.calledProcessError c3 r3.exitCode r3.stderr)⟩
      else
        let p3 := p2 ++ ["✓ File uploaded successfully to " ++ hp, "Step 4: Verifying upload..."]
        let c4 := verify_cmd hp
        let r4 := env.run c4
        let p4 := p3 ++
          (if r4.exitCode ≠ 0 then ["Warning: Could not verify file: " ++ r4.stderr]
           else ["✓ File verified in HDFS", "\nHDFS file info:\n" ++ r4.stdout]) ++
          ["Step 5: Cleaning up temporary file..."]
        let c5 := cleanup_cmd ln
        let r5 := env.run c5
        let p5 := p4 ++ (if r5.exitCode = 0 then ["✓ Cleanup complete"] else []) ++
          ["\n✅ Successfully uploaded " ++ lp ++ " to HDFS at " ++ hp]
        ⟨[c1, mkdir_cmd, c3, c4, c5], p5, .ok hp⟩

/-- Observable outcome of check_hdfs_connection. -/
structure CheckRun where
  trace : List (List String)
  printed : List String
  ok : Bool

/-- Shallow embedding of check_hdfs_connection (upload_to_hdfs.py lines
97-127). -/
def check_hdfs_connection (env : CliEnv) : CheckRun :=
  let p0 := ["Checking HDFS connection..."]
  let r1 := env.run ps_cmd
  if r1.exitCode ≠ 0 then
    ⟨[ps_cmd], p0 ++ ["❌ Could not check docker containers"], false⟩
  else if strContains r1.stdout "namenode" = false then
    ⟨[ps_cmd], p0 ++ ["❌ Namenode container is not running!",
                      "Please start the containers with: docker-compose up -d"], false⟩
  else
    let p1 := p0 ++ ["✓ Namenode container is running"]
    let r2 := env.run probe_cmd
    if env.probeTimeout then
      ⟨[ps_cmd, probe_cmd], p1 ++ ["❌ HDFS connection timeout"], false⟩
    else if r2.exitCode ≠ 0 then
      ⟨[ps_cmd, probe_cmd], p1 ++ ["❌ HDFS connection failed: " ++ r2.stderr], false⟩
    else
      ⟨[ps_cmd, probe_cmd], p1 ++ ["✓ HDFS is accessible"], true⟩

/-- Observable outcome of one whole process run: command trace, printed
lines, and process exit code. -/
structure ProcRun where
  trace : List (List String)
  printed : List String
  exitCode : Nat

/-- Shallow embedding of the main block of upload_to_hdfs.py (lines
130-148).  `la` and `ln` are the absolute path and basename the Path
object computes for the hardcoded csv_file literal. -/
def main_cli (env : CliEnv) (la ln : String) : ProcRun :=
  let chk := check_hdfs_connection env
  if chk.ok = false then
    ⟨chk.trace,
     chk.printed ++
       ["\n⚠️  Please ensure Docker containers are running:",
        "   docker-compose up -d",
        "\nIf you\x27re having Docker issues, you may need to:",
        "   1. Restart Docker Desktop",
        "   2. Check Docker API version compatibility"],
     1⟩
  else
    let up := upload_csv_to_hdfs env "data\\lastfm_data.csv" la ln "/data/lastfm_data.csv"
    match up.result with
    | .error e =>
        ⟨chk.trace ++ up.trace, chk.printed ++ up.printed ++ ["\n❌ Error: " ++ e.message], 1⟩
    | .ok _ =>
        ⟨chk.trace ++ up.trace, chk.printed ++ up.printed, 0⟩

/-- Environment of the REST transfer script
(upload_to_hdfs_alternative.py).  Each field gives the outcome of the
corresponding hdfs-library call: client construction, makedirs, upload,
and the status query (returning the remote file length on success). -/
structure RestEnv where
  hdfsAvailable : Bool
  localExists : Bool
  connect : Except String Unit
  makedirs : Except String Unit
  upload : Except String Unit
  statusLength : Except String Nat

/-- Observable outcome of upload_csv_to_hdfs_hdfs_lib: the lines printed
and the boolean the function returns. -/
structure RestRun where
  printed : List String
  success : Bool

/-- Shallow embedding of upload_csv_to_hdfs_hdfs_lib
(upload_to_hdfs_alternative.py lines 13-65).  `lp` is the
local_file_path argument and `hp` the hdfs_path argument. -/
def upload_csv_to_hdfs_hdfs_lib (env : RestEnv) (lp hp : String) : RestRun :=
  if env.hdfsAvailable = false then
    ⟨["Please install hdfs library: pip install hdfs"], false⟩
  else if env.localExists = false then
    ⟨["❌ File not found: " ++ lp], false⟩
  else
    match env.connect with
    | .error e =>
        ⟨["❌ Could not connect to HDFS: " ++ e,
          "Make sure HDFS containers are running and accessible"], false⟩
    | .ok _ =>
      let p1 := ["✓ Connected to HDFS"]
      let hdfs_dir := String.intercalate "/" ((hp.splitOn "/").dropLast)
      let p2 := p1 ++
        (match env.makedirs with
         | .error e => ["Warning: " ++ e]
         | .ok _ => ["✓ Created/verified directory: " ++ hdfs_dir])
      let p3 := p2 ++ ["Uploading " ++ lp ++ " to " ++ hp ++ "..."]
      match env.upload with
      | .error e => ⟨p3 ++ ["❌ Upload failed: " ++ e], false⟩
      | .ok _ =>
        let p4 := p3 ++ ["✓ Successfully uploaded to " ++ hp]
        match env.statusLength with
        | .error e => ⟨p4 ++ ["❌ Upload failed: " ++ e], false⟩
        | .ok len =>
            ⟨p4 ++ ["\nFile info:", "  Size: " ++ toString len ++ " bytes",
                    "  Path: " ++ hp], true⟩

/-- Shallow embedding of the main block of upload_to_hdfs_alternative.py
(lines 68-72): it calls the upload function with the hardcoded paths,
ignores the returned boolean, and the interpreter then exits with status
0 — every failure inside the function is caught there and reported only
by the printed diagnostic and the discarded False return. -/
def main_alt (env : RestEnv) : List String × Nat :=
  ((upload_csv_to_hdfs_hdfs_lib env "data\\lastfm_data.csv" "/data/lastfm_data.csv").printed, 0)

/-- Parsed JSON value, the element type of the loader dataset
(load_hdfs_data.py).  Numeric literals are modelled as integers; object
key order is the file order, as Python dicts preserve insertion order. -/
inductive Json where
  | null
  | bool (b : Bool)
  | int (n : Int)
  | str (s : String)
  | arr (xs : List Json)
  | obj (kvs : List (String × Json))
deriving Repr, Inhabited

mutual

/-- Python repr() of a parsed JSON value (lists and dicts render element
reprs; strings render between single quotes, eliding escape handling). -/
def pyRepr : Json → String
  | .null => "None"
  | .bool true => "True"
  | .bool false => "False"
  | .int n => toString n
  | .str s => "\x27" ++ s ++ "\x27"
  | .arr xs => "[" ++ pyReprList xs ++ "]"
  | .obj kvs => "\x7b" ++ pyReprObj kvs ++ "\x7d"

/-- Comma-separated reprs of list elements. -/
def pyReprList : List Json → String
  | [] => ""
  | [x] => pyRepr x
  | x :: y :: xs => pyRepr x ++ ", " ++ pyReprList (y :: xs)

/-- Comma-separated reprs of dict entries. -/
def pyReprObj : List (String × Json) → String
  | [] => ""
  | [(k, v)] => "\x27" ++ k ++ "\x27: " ++ pyRepr v
  | (k, v) :: e :: xs => "\x27" ++ k ++ "\x27: " ++ pyRepr v ++ ", " ++ pyReprObj (e :: xs)

end

/-- Python str() of a parsed JSON value: identity on strings, repr-style
rendering otherwise. -/
def pyStr : Json → String
  | .str s => s
  | j => pyRepr j

mutual

/-- json.dumps of a parsed JSON value with default separators (string
escape handling elided, as the measured dataset strings need none). -/
def dumps : Json → String
  | .null => "null"
  | .bool true => "true"
  | .bool false => "false"
  | .int n => toString n
  | .str s => "\"" ++ s ++ "\""
  | .arr xs => "[" ++ dumpsList xs ++ "]"
  | .obj kvs => "\x7b" ++ dumpsObj kvs ++ "\x7d"

/-- Comma-separated dumps of list elements. -/
def dumpsList : List Json → String
  | [] => ""
  | [x] => dumps x
  | x :: y :: xs => dumps x ++ ", " ++ dumpsList (y :: xs)

/-- Comma-separated dumps of dict entries. -/
def dumpsObj : List (String × Json) → String
  | [] => ""
  | [(k, v)] => "\"" ++ k ++ "\": " ++ dumps v
  | (k, v) :: e :: xs => "\"" ++ k ++ "\": " ++ dumps v ++ ", " ++ dumpsObj (e :: xs)

end

/-- Python truthiness of a parsed JSON value (bool(x) is False exactly for
None, False, 0, empty string, empty list, empty dict). -/
def falsy : Json → Bool
  | .null => true
  | .bool b => !b
  | .int n => n == 0
  | .str s => s == ""
  | .arr xs => xs.isEmpty
  | .obj kvs => kvs.isEmpty

/-- Filesystem environment of the ingestion script: `glob` maps a pattern
to the ordered file list it matches, and `parse` gives, per path, the
parsed JSON value or the exception message raised while opening or
parsing the file. -/
structure FS where
  glob : String → List String
  parse : String → Except String Json

/-- The loader object: configured base path plus the accumulated dataset
(HDFSDataLoader.__init__, load_hdfs_data.py lines 9-12). -/
structure HDFSDataLoader where
  base_path : String
  data : List Json

/-- Lines printed by load_all_json_files, kept structured so they can be
counted by kind; renderEvent gives the exact printed text. -/
inductive LoadEvent where
  | found (n : Nat)
  | progress (i total : Nat)
  | errorMsg (file err : String)
  | success (n : Nat)
deriving Repr, DecidableEq

/-- The printed text of each load event (load_hdfs_data.py lines 22, 31,
34, 36). -/
def renderEvent : LoadEvent → String
  | .found n => "Found " ++ toString n ++ " JSON files to load..."
  | .progress i total => "Loaded " ++ toString i ++ "/" ++ toString total ++ " files..."
  | .errorMsg f e => "Error loading " ++ f ++ ": " ++ e
  | .success n => "Successfully loaded " ++ toString n ++ " records"

/-- Whether a load event is a per-file error message. -/
def isErrorEvent : LoadEvent → Bool
  | .errorMsg _ _ => true
  | _ => false

/-- The glob pattern of load_all_json_files (line 19), the base path
joined with the recursive JSON pattern. -/
def json_pattern (L : HDFSDataLoader) : String :=
  L.base_path ++ "/**/*.json"

/-- The per-file loop of load_all_json_files (lines 24-34): on a parse
success the value is appended to the dataset and a progress line is
printed every 10000 files; on failure an error line is printed and the
file is skipped. -/
def loadLoop (parse : String → Except String Json) (total : Nat) :
    List String → Nat → List Json → List LoadEvent → List Json × List LoadEvent
  | [], _, data, evs => (data, evs)
  | f :: fs, idx, data, evs =>
    match parse f with
    | .ok j =>
        loadLoop parse total fs (idx + 1) (data ++ [j])
          (evs ++ (if (idx + 1) % 10000 = 0 then [LoadEvent.progress (idx + 1) total] else []))
    | .error e =>
        loadLoop parse total fs (idx + 1) data (evs ++ [LoadEvent.errorMsg f e])

/-- Shallow embedding of HDFSDataLoader.load_all_json_files (lines
14-37): glob the pattern, fold the per-file loop over the discovered
files starting from the dataset accumulated so far, and return the
updated loader, the returned dataset and the printed events. -/
def load_all_json_files (fs : FS) (L : HDFSDataLoader) :
    HDFSDataLoader × List Json × List LoadEvent :=
  let json_files := fs.glob (json_pattern L)
  let r := loadLoop fs.parse json_files.length json_files 0 L.data
    [LoadEvent.found json_files.length]
  (⟨L.base_path, r.1⟩, r.1, r.2 ++ [LoadEvent.success r.1.length])

/-- The keys of a record when the value is a JSON object; none otherwise
(a non-dict value has no .keys(), and Python raises AttributeError). -/
def jsonKeys : Json → Option (List String)
  | .obj kvs => some (kvs.map Prod.fst)
  | _ => none

/-- The statistics dictionary built by get_statistics (lines 52-56). -/
structure Stats where
  total_records : Nat
  columns : List String
  memory_usage_mb : ℚ
deriving Repr

/-- The value get_statistics builds from a dataset: record count, the
first record dict keys (empty list for an empty dataset), and the summed
json.dumps lengths scaled to megabytes; an AttributeError escapes when
the first record is not a dict. -/
def statsOf (data : List Json) : Except String Stats :=
  match data.head? with
  | none => .ok ⟨0, [], 0⟩
  | some j =>
      match jsonKeys j with
      | some ks =>
          .ok ⟨data.length, ks,
               ((data.map (fun r => ((dumps r).length : ℚ))).sum) / (1024 * 1024)⟩
      | none => .error "AttributeError: keys"

/-- Shallow embedding of HDFSDataLoader.get_statistics (lines 46-56):
when the dataset is empty it first runs a full load (printing a notice
followed by the load output), then builds the statistics dictionary from
the resulting dataset. -/
def get_statistics (fs : FS) (L : HDFSDataLoader) :
    HDFSDataLoader × List String × Except String Stats :=
  if L.data.isEmpty then
    let res := load_all_json_files fs L
    (res.1, "No data loaded. Loading data first..." :: (res.2.2).map renderEvent,
     statsOf res.1.data)
  else
    (L, [], statsOf L.data)

/-- A record as the tabular exporter sees it: one parsed JSON object, a
key-ordered association list with distinct keys (a Python dict). -/
def Record := List (String × Json)

/-- View of a dataset element as a record; none for non-dict values. -/
def asRecord : Json → Option Record
  | .obj kvs => some kvs
  | _ => none

/-- The keys of a record, in insertion order. -/
def recordKeys (r : Record) : List String :=
  r.map Prod.fst

/-- A cell of the tabular structure: a present value, or the NaN pandas
fills in for a key the record lacks. -/
inductive Cell where
  | val (j : Json)
  | nan
deriving Repr

/-- Append a key to a column list unless already present. -/
def insertKey (acc : List String) (k : String) : List String :=
  if k ∈ acc then acc else acc ++ [k]

/-- Column set of pd.DataFrame over a list of dicts: the union of record
keys in order of first appearance. -/
def unionKeys (rs : List Record) : List String :=
  rs.foldl (fun acc r => (recordKeys r).foldl insertKey acc) []

/-- The row a record contributes, one cell per column: the value when the
record has the key, NaN otherwise. -/
def rowOf (cols : List String) (r : Record) : List Cell :=
  cols.map fun k =>
    match List.lookup k r with
    | some v => Cell.val v
    | none => Cell.nan

/-- The tabular structure pd.DataFrame builds from a list of dicts
(load_hdfs_data.py line 44): columns and row-major cells. -/
structure DataFrame where
  columns : List String
  rows : List (List Cell)

/-- Models pd.DataFrame applied to the loaded dataset of records. -/
def toDataFrame (rs : List Record) : DataFrame :=
  ⟨unionKeys rs, rs.map (rowOf (unionKeys rs))⟩

/-- Python truthiness of a cell: a NaN cell is truthy (bool(nan) is
True), a value cell follows JSON-value truthiness. -/
def cellTruthy : Cell → Bool
  | .nan => true
  | .val j => !(falsy j)

/-- Python str() of a cell: "nan" for a missing cell, str of the value
otherwise. -/
def cellPyStr : Cell → String
  | .nan => "nan"
  | .val j => pyStr j

/-- The lambda of load_hdfs_data.py lines 94-95 applied to one cell:
`str(x) if x else ""` — the stringified value for truthy x, the empty
string otherwise; always a string cell. -/
def stringifyCell (c : Cell) : Cell :=
  .val (.str (if cellTruthy c then cellPyStr c else ""))

/-- One row after Series.apply of the stringifying lambda on column `k`:
cells in positions whose column name is `k` are stringified, all others
kept. -/
def applyRow (k : String) : List String → List Cell → List Cell
  | c :: cs, x :: xs => (if c = k then stringifyCell x else x) :: applyRow k cs xs
  | _, xs => xs

/-- The DataFrame after replacing column `k` by its stringified form
(the assignment df_flat[k] = df_flat[k].apply(...)). -/
def applyStringify (df : DataFrame) (k : String) : DataFrame :=
  ⟨df.columns, df.rows.map (applyRow k df.columns)⟩

/-- The CSV-export step of main (load_hdfs_data.py lines 92-96): reading
df_flat["similars"] raises KeyError when no such column exists, then
likewise for "tags"; otherwise both columns are stringified and the
frame is written out. -/
def mainExport (df : DataFrame) : Except String DataFrame :=
  if "similars" ∈ df.columns then
    if "tags" ∈ df.columns then
      .ok (applyStringify (applyStringify df "similars") "tags")
    else
      .error "KeyError: \x27tags\x27"
  else
    .error "KeyError: \x27similars\x27"

/-- Shallow embedding of HDFSDataLoader.to_dataframe (lines 39-44): load
first when the dataset is empty, then hand the dataset to pd.DataFrame —
modelled for the list-of-dict shape this pipeline produces, none when
some element is not a JSON object. -/
def to_dataframe (fs : FS) (L : HDFSDataLoader) : HDFSDataLoader × Option DataFrame :=
  let L2 := if L.data.isEmpty then (load_all_json_files fs L).1 else L
  (L2, (L2.data.mapM asRecord).map toDataFrame)

/-- Replace only the remote-existence flags of a CLI environment; used to
state that the transfer sequence is insensitive to the remote state. -/
def setFlags (env : CliEnv) (a b c : Bool) : CliEnv :=
  { env with stagedExists := a, remoteDirExists := b, remoteFileExists := c }

/-- A run in which the staged file, the remote directory and the remote
file all already exist: docker cp and mkdir -p still succeed (they
overwrite or tolerate an existing target) while hdfs dfs -put fails
because the destination file exists. -/
def envAllExist : CliEnv :=
  { localExists := true, stagedExists := true, remoteDirExists := true,
    remoteFileExists := true, probeTimeout := false,
    run := fun c =>
      if c = upload_cmd "lastfm_data.csv" "/data/lastfm_data.csv" then
        ⟨1, "", "put: /data/lastfm_data.csv: File exists"⟩
      else ⟨0, "namenode", ""⟩ }

/-- A run in which the directory-creation command fails for a reason
other than an existing directory while every other command succeeds. -/
def envMkdirDenied : CliEnv :=
  { localExists := true, stagedExists := false, remoteDirExists := false,
    remoteFileExists := false, probeTimeout := false,
    run := fun c =>
      if c = mkdir_cmd then ⟨1, "", "mkdir: Permission denied"⟩
      else ⟨0, "namenode", ""⟩ }

/-- A run in which every external command succeeds. -/
def envHappy : CliEnv :=
  { localExists := true, stagedExists := false, remoteDirExists := false,
    remoteFileExists := false, probeTimeout := false,
    run := fun _ => ⟨0, "namenode", ""⟩ }

/-- A run in which the docker ps query itself fails, so the connectivity
check fails before the probe. -/
def envPsFails : CliEnv :=
  { localExists := true, stagedExists := false, remoteDirExists := false,
    remoteFileExists := false, probeTimeout := false,
    run := fun c =>
      if c = ps_cmd then ⟨1, "", "docker daemon unreachable"⟩
      else ⟨0, "namenode", ""⟩ }

/-- A run of the REST variant in which the local file is missing. -/
def restEnvMissing : RestEnv :=
  { hdfsAvailable := true, localExists := false, connect := .ok (),
    makedirs := .ok (), upload := .ok (), statusLength := .ok 0 }

/-- A directory tree with two parseable JSON files and one corrupt one. -/
def fsExample : FS :=
  { glob := fun _ => ["a.json", "b.json", "c.json"],
    parse := fun f =>
      if f = "b.json" then .error "Expecting value: line 1 column 1 (char 0)"
      else .ok (Json.obj [("id", Json.int 1), ("tags", Json.arr [Json.str "x"])]) }

/-- A directory tree with a single parseable JSON file. -/
def fsOne : FS :=
  { glob := fun _ => ["a.json"], parse := fun _ => .ok Json.null }

/-- A freshly constructed loader (empty dataset). -/
def freshLoader : HDFSDataLoader :=
  ⟨"lastfm_train", []⟩

/-- A loader whose dataset already holds two records with different key
sets. -/
def hetLoader : HDFSDataLoader :=
  ⟨"lastfm_train", [Json.obj [("a", Json.null)], Json.obj [("b", Json.null)]]⟩

/-- Two records with different key sets, for column-union statements. -/
def rsHet : List Record :=
  [[("a", Json.int 1)], [("b", Json.int 2)]]

/-- A one-record dataset carrying an empty similars list and a one-tag
tags list. -/
def rsC6 : List Record :=
  [[("similars", Json.arr []), ("tags", Json.arr [Json.str "x"])]]

/-- The frame rsC6 exports: both nested-structure columns stringified. -/
def outC6 : DataFrame :=
  applyStringify (applyStringify (toDataFrame rsC6) "similars") "tags"

/-- The single exported row of rsC6. -/
def rowC6 : List Cell :=
  [Cell.val (Json.str ""), Cell.val (Json.str "[\x27x\x27]")]

/-- A non-empty dataset none of whose records carries the similars key. -/
def rsNoSim : List Record :=
  [[("id", Json.int 1)]]

lemma upload_trace (env : CliEnv) (lp la ln hp : String) (h : env.localExists = true) :
    ((env.run (copy_cmd la ln)).exitCode ≠ 0 ∧
       (upload_csv_to_hdfs env lp la ln hp).trace = [copy_cmd la ln]) ∨
    ((env.run (copy_cmd la ln)).exitCode = 0 ∧ (env.run (upload_cmd ln hp)).exitCode ≠ 0 ∧
       (upload_csv_to_hdfs env lp la ln hp).trace =
         [copy_cmd la ln, mkdir_cmd, upload_cmd ln hp]) ∨
    ((env.run (copy_cmd la ln)).exitCode = 0 ∧ (env.run (upload_cmd ln hp)).exitCode = 0 ∧
       (upload_csv_to_hdfs env lp la ln hp).trace =
         [copy_cmd la ln, mkdir_cmd, upload_cmd ln hp, verify_cmd hp, cleanup_cmd ln]) := by
  by_cases h1 : (env.run (copy_cmd la ln)).exitCode = 0
  · by_cases h3 : (env.run (upload_cmd ln hp)).exitCode = 0
    · refine Or.inr (Or.inr ⟨h1, h3, ?_⟩)
      simp [upload_csv_to_hdfs, h, h1, h3]
    · refine Or.inr (Or.inl ⟨h1, h3, ?_⟩)
      simp [upload_csv_to_hdfs, h, h1, h3]
  · refine Or.inl ⟨h1, ?_⟩
    simp [upload_csv_to_hdfs, h, h1]

/-- C1: the claim asserts an existence pre-check before each of the three
mutating commands, with the step skipped when the destination already
exists.  The code performs no pre-check: in a run where the staged file,
the remote directory and the remote file all already exist, each of the
three mutating commands is still issued once (and the put step then fails
on the existing destination) instead of being skipped. -/
theorem C1_counterexample :
    envAllExist.stagedExists = true ∧ envAllExist.remoteDirExists = true ∧
    envAllExist.remoteFileExists = true ∧
    (upload_csv_to_hdfs envAllExist "data\\lastfm_data.csv" "/abs/lastfm_data.csv"
        "lastfm_data.csv" "/data/lastfm_data.csv").trace.count
      (copy_cmd "/abs/lastfm_data.csv" "lastfm_data.csv") = 1 ∧
    (upload_csv_to_hdfs envAllExist "data\\lastfm_data.csv" "/abs/lastfm_data.csv"
        "lastfm_data.csv" "/data/lastfm_data.csv").trace.count mkdir_cmd = 1 ∧
    (upload_csv_to_hdfs envAllExist "data\\lastfm_data.csv" "/abs/lastfm_data.csv"
        "lastfm_data.csv" "/data/lastfm_data.csv").trace.count
      (upload_cmd "lastfm_data.csv" "/data/lastfm_data.csv") = 1 := by
  decide

/-- C1 (amended): whenever the local file exists, the copy command is
issued exactly once, and once the copy succeeds the directory-creation
and put commands are each issued exactly once — unconditionally, with no
existence pre-check and no skipping: the run is unchanged under any
values of the remote-existence flags. -/
theorem C1_amended (env : CliEnv) (lp la ln hp : String) (h : env.localExists = true) :
    (upload_csv_to_hdfs env lp la ln hp).trace.count (copy_cmd la ln) = 1 ∧
    ((env.run (copy_cmd la ln)).exitCode = 0 →
       (upload_csv_to_hdfs env lp la ln hp).trace.count mkdir_cmd = 1 ∧
       (upload_csv_to_hdfs env lp la ln hp).trace.count (upload_cmd ln hp) = 1) ∧
    (∀ a b c, upload_csv_to_hdfs (setFlags env a b c) lp la ln hp =
       upload_csv_to_hdfs env lp la ln hp) := by
  refine ⟨?_, ?_, fun a b c => rfl⟩
  · rcases upload_trace env lp la ln hp h with ⟨_, ht⟩ | ⟨_, _, ht⟩ | ⟨_, _, ht⟩ <;>
      rw [ht] <;>
      simp [List.count_cons, copy_cmd, mkdir_cmd, upload_cmd, verify_cmd, cleanup_cmd]
  · intro h1
    rcases upload_trace env lp la ln hp h with ⟨hne, _⟩ | ⟨_, _, ht⟩ | ⟨_, _, ht⟩
    · exact absurd h1 hne
    all_goals rw [ht]
    all_goals constructor <;>
      simp [List.count_cons, copy_cmd, mkdir_cmd, upload_cmd, verify_cmd, cleanup_cmd]

/-- C1 witness: the amended statement instantiated on a run where every
command succeeds. -/
theorem C1_witness :
    (upload_csv_to_hdfs envHappy "a" "b" "c" "/d").trace.count (copy_cmd "b" "c") = 1 ∧
    (upload_csv_to_hdfs envHappy "a" "b" "c" "/d").trace.count mkdir_cmd = 1 := by
  have h := C1_amended envHappy "a" "b" "c" "/d" rfl
  exact ⟨h.1, (h.2.1 rfl).1⟩

/-- C2: the claim asserts every step raises on non-zero exit except a
directory-creation failure whose error output says the directory already
exists.  In the code the directory-creation step never raises: here it
fails with a permission error — output not indicating an existing
directory — yet the run completes successfully instead of aborting. -/
theorem C2_counterexample :
    (envMkdirDenied.run mkdir_cmd).exitCode = 1 ∧
    strContains (strLower (envMkdirDenied.run mkdir_cmd).stderr) "already exists" = false ∧
    (upload_csv_to_hdfs envMkdirDenied "data\\lastfm_data.csv" "/abs/lastfm_data.csv"
        "lastfm_data.csv" "/data/lastfm_data.csv").result =
      Except.ok "/data/lastfm_data.csv" :=
  ⟨rfl, by decide, rfl⟩

/-- C2 (amended): on non-zero exit the copy and upload steps raise a
run-aborting CalledProcessError carrying the captured error output; the
directory-creation step never raises — it prints a warning carrying the
error output unless that output indicates the directory already exists —
and the verify and cleanup steps never raise either: once copy and
upload succeed the run returns normally whatever the other steps do. -/
theorem C2_amended (env : CliEnv) (lp la ln hp : String) (h : env.localExists = true) :
    ((env.run (copy_cmd la ln)).exitCode ≠ 0 →
       (upload_csv_to_hdfs env lp la ln hp).result =
         Except.error (PyError.calledProcessError (copy_cmd la ln)
           (env.run (copy_cmd la ln)).exitCode (env.run (copy_cmd la ln)).stderr)) ∧
    ((env.run (copy_cmd la ln)).exitCode = 0 →
       (env.run (upload_cmd ln hp)).exitCode ≠ 0 →
       (upload_csv_to_hdfs env lp la ln hp).result =
         Except.error (PyError.calledProcessError (upload_cmd ln hp)
           (env.run (upload_cmd ln hp)).exitCode (env.run (upload_cmd ln hp)).stderr)) ∧
    ((env.run (copy_cmd la ln)).exitCode = 0 →
       (env.run (upload_cmd ln hp)).exitCode = 0 →
       (upload_csv_to_hdfs env lp la ln hp).result = Except.ok hp) ∧
    ((env.run (copy_cmd la ln)).exitCode = 0 →
       (env.run mkdir_cmd).exitCode ≠ 0 →
       strContains (strLower (env.run mkdir_cmd).stderr) "already exists" = false →
       ("Warning: " ++ (env.run mkdir_cmd).stderr) ∈
         (upload_csv_to_hdfs env lp la ln hp).printed) := by
  refine ⟨fun h1 => ?_, fun h1 h3 => ?_, fun h1 h3 => ?_, fun h1 h2 hs => ?_⟩
  · simp [upload_csv_to_hdfs, h, h1]
  · simp [upload_csv_to_hdfs, h, h1, h3]
  · simp [upload_csv_to_hdfs, h, h1, h3]
  · by_cases h3 : (env.run (upload_cmd ln hp)).exitCode = 0 <;>
      simp [upload_csv_to_hdfs, h, h1, h2, h3, hs]

/-- C2 witness: the amended statement instantiated on the
permission-denied run: the run succeeds and the warning is printed. -/
theorem C2_witness :
    (upload_csv_to_hdfs envMkdirDenied "a" "b" "c" "/d").result = Except.ok "/d" ∧
    ("Warning: mkdir: Permission denied") ∈
      (upload_csv_to_hdfs envMkdirDenied "a" "b" "c" "/d").printed := by
  have h := C2_amended envMkdirDenied "a" "b" "c" "/d" rfl
  exact ⟨h.2.2.1 rfl rfl, h.2.2.2 rfl (by decide) (by decide)⟩

lemma check_trace (env : CliEnv) :
    (check_hdfs_connection env).trace = [ps_cmd] ∨
    (check_hdfs_connection env).trace = [ps_cmd, probe_cmd] := by
  unfold check_hdfs_connection
  by_cases h1 : (env.run ps_cmd).exitCode = 0
  · by_cases h2 : strContains (env.run ps_cmd).stdout "namenode" = false
    · left; simp [h1, h2]
    · by_cases h3 : env.probeTimeout
      · right; simp [h1, h2, h3]
      · by_cases h4 : (env.run probe_cmd).exitCode = 0 <;>
          right <;> simp [h1, h2, h3, h4]
  · left; simp [h1]

/-- C3: the claim asserts both transfer scripts exit with status 1 on a
failure such as a missing local file.  The REST variant prints the
missing-file diagnostic and returns False, but its main block ignores the
returned boolean, so the process still exits with status 0. -/
theorem C3_counterexample :
    restEnvMissing.localExists = false ∧
    (main_alt restEnvMissing).2 = 0 ∧
    ("❌ File not found: data\\lastfm_data.csv") ∈ (main_alt restEnvMissing).1 := by
  refine ⟨rfl, rfl, ?_⟩
  decide

/-- C3 (amended): the CLI variant exits 0 on success and 1 when the
connectivity check fails or when the transfer raises (missing local
file, failed copy, failed upload), each non-zero exit preceded by a
printed diagnostic; the REST variant always exits 0 because its main
block discards the boolean failure result, reporting failures only
through printed diagnostics. -/
theorem C3_amended (renv : RestEnv) (env : CliEnv) (la ln : String) :
    (main_alt renv).2 = 0 ∧
    ((check_hdfs_connection env).ok = false →
       (main_cli env la ln).exitCode = 1 ∧
       "   docker-compose up -d" ∈ (main_cli env la ln).printed) ∧
    (∀ e, (check_hdfs_connection env).ok = true →
       (upload_csv_to_hdfs env "data\\lastfm_data.csv" la ln "/data/lastfm_data.csv").result =
         Except.error e →
       (main_cli env la ln).exitCode = 1 ∧
       ("\n❌ Error: " ++ e.message) ∈ (main_cli env la ln).printed) ∧
    (∀ s, (check_hdfs_connection env).ok = true →
       (upload_csv_to_hdfs env "data\\lastfm_data.csv" la ln "/data/lastfm_data.csv").result =
         Except.ok s →
       (main_cli env la ln).exitCode = 0) := by
  refine ⟨rfl, fun hc => ?_, fun e hc he => ?_, fun s hc hs => ?_⟩
  · constructor <;> simp [main_cli, hc]
  · constructor <;> simp [main_cli, hc, he]
  · simp [main_cli, hc, hs]

/-- C3 witness: the amended statement instantiated on the missing-file
REST run and on a CLI run whose connectivity check fails. -/
theorem C3_witness :
    (main_alt restEnvMissing).2 = 0 ∧ (main_cli envPsFails "a" "b").exitCode = 1 := by
  have h := C3_amended restEnvMissing envPsFails "a" "b"
  exact ⟨h.1, (h.2.1 (by decide)).1⟩

/-- C8: whenever the connectivity check fails (container not running,
docker query failing, remote listing failing or timing out), the main
block issues none of the five transfer-step commands — its trace is the
check trace alone — prints the remediation text and exits with status 1. -/
theorem C8_no_transfer (env : CliEnv) (la ln : String)
    (h : (check_hdfs_connection env).ok = false) :
    (main_cli env la ln).exitCode = 1 ∧
    (main_cli env la ln).trace = (check_hdfs_connection env).trace ∧
    copy_cmd la ln ∉ (main_cli env la ln).trace ∧
    mkdir_cmd ∉ (main_cli env la ln).trace ∧
    upload_cmd ln "/data/lastfm_data.csv" ∉ (main_cli env la ln).trace ∧
    verify_cmd "/data/lastfm_data.csv" ∉ (main_cli env la ln).trace ∧
    cleanup_cmd ln ∉ (main_cli env la ln).trace ∧
    "   docker-compose up -d" ∈ (main_cli env la ln).printed := by
  have htr : (main_cli env la ln).trace = (check_hdfs_connection env).trace := by
    simp [main_cli, h]
  refine ⟨by simp [main_cli, h], htr, ?_, ?_, ?_, ?_, ?_, by simp [main_cli, h]⟩ <;>
    rw [htr] <;>
    rcases check_trace env with hc | hc <;>
    rw [hc] <;>
    simp [copy_cmd, mkdir_cmd, upload_cmd, verify_cmd, cleanup_cmd, ps_cmd, probe_cmd]

/-- C8 witness: the statement instantiated on a run whose docker ps
query fails. -/
theorem C8_witness :
    (main_cli envPsFails "a" "b").exitCode = 1 ∧
    copy_cmd "a" "b" ∉ (main_cli envPsFails "a" "b").trace := by
  have h := C8_no_transfer envPsFails "a" "b" (by decide)
  exact ⟨h.1, h.2.2.1⟩

lemma loadLoop_data (p : String → Except String Json) (t : Nat) :
    ∀ (files : List String) (i : Nat) (d : List Json) (e : List LoadEvent),
      (loadLoop p t files i d e).1 = d ++ files.filterMap (fun f => (p f).toOption) := by
  intro files
  induction files with
  | nil => intro i d e; simp [loadLoop]
  | cons f fs ih =>
    intro i d e
    unfold loadLoop
    cases hf : p f with
    | ok j => simp [hf, ih, Except.toOption]
    | error err => simp [hf, ih, Except.toOption]

lemma loadLoop_errors (p : String → Except String Json) (t : Nat) :
    ∀ (files : List String) (i : Nat) (d : List Json) (e : List LoadEvent),
      ((loadLoop p t files i d e).2).countP isErrorEvent =
        e.countP isErrorEvent + files.countP (fun f => ((p f).toOption).isNone) := by
  intro files
  induction files with
  | nil => intro i d e; simp [loadLoop]
  | cons f fs ih =>
    intro i d e
    unfold loadLoop
    cases hf : p f with
    | ok j =>
      rw [ih]
      by_cases hm : (i + 1) % 10000 = 0 <;>
        simp [hf, hm, Except.toOption, List.countP_append, List.countP_cons, isErrorEvent]
    | error err =>
      rw [ih]
      simp [hf, Except.toOption, List.countP_append, List.countP_cons, isErrorEvent]
      omega

lemma load_all_data (fs : FS) (L : HDFSDataLoader) :
    (load_all_json_files fs L).2.1 =
      L.data ++ (fs.glob (json_pattern L)).filterMap (fun f => ((fs.parse f).toOption)) := by
  unfold load_all_json_files
  simp [loadLoop_data]

lemma load_loader_data (fs : FS) (L : HDFSDataLoader) :
    (load_all_json_files fs L).1.data = (load_all_json_files fs L).2.1 := rfl

lemma load_all_errors (fs : FS) (L : HDFSDataLoader) :
    ((load_all_json_files fs L).2.2).countP isErrorEvent =
      (fs.glob (json_pattern L)).countP (fun f => ((fs.parse f).toOption).isNone) := by
  unfold load_all_json_files
  simp [loadLoop_errors, List.countP_append, List.countP_cons, isErrorEvent]

lemma length_filterMap_toOption (p : String → Except String Json) :
    ∀ files : List String,
      (files.filterMap (fun f => ((p f).toOption))).length =
        files.countP (fun f => ((p f).toOption).isSome) := by
  intro files
  induction files with
  | nil => rfl
  | cons f fs ih =>
    cases hf : (p f).toOption <;> simp [hf, List.countP_cons, ih]

/-- C4: on a newly constructed loader, one call to load_all_json_files
returns, in discovery order, exactly the values of the files that parse
(N records when N files parse), and logs one per-file error message for
each of the M files that fail to open or parse, skipping them. -/
theorem C4_load_counts (fs : FS) (L : HDFSDataLoader) (h : L.data = []) :
    (load_all_json_files fs L).2.1 =
      (fs.glob (json_pattern L)).filterMap (fun f => ((fs.parse f).toOption)) ∧
    (load_all_json_files fs L).2.1.length =
      (fs.glob (json_pattern L)).countP (fun f => ((fs.parse f).toOption).isSome) ∧
    ((load_all_json_files fs L).2.2).countP isErrorEvent =
      (fs.glob (json_pattern L)).countP (fun f => ((fs.parse f).toOption).isNone) := by
  have hd := load_all_data fs L
  rw [h] at hd
  simp only [List.nil_append] at hd
  exact ⟨hd, by rw [hd]; exact length_filterMap_toOption _ _, load_all_errors fs L⟩

/-- C4 witness: on the three-file tree with one corrupt file the load
yields two records and logs one error. -/
theorem C4_witness :
    (load_all_json_files fsExample freshLoader).2.1.length = 2 ∧
    ((load_all_json_files fsExample freshLoader).2.2).countP isErrorEvent = 1 := by
  obtain ⟨h1, h2, h3⟩ := C4_load_counts fsExample freshLoader rfl
  exact ⟨by rw [h2]; rfl, by rw [h3]; rfl⟩

/-- C7: the claim extends the length bound to calls on a loader whose
dataset is already non-empty; but the loader never resets its dataset, so
a second call over the same single-file tree leaves 2 records, exceeding
the 1 file that call's glob discovered. -/
theorem C7_counterexample :
    (load_all_json_files fsOne (load_all_json_files fsOne freshLoader).1).1.data.length = 2 ∧
    (fsOne.glob (json_pattern (load_all_json_files fsOne freshLoader).1)).length = 1 ∧
    ¬((load_all_json_files fsOne (load_all_json_files fsOne freshLoader).1).1.data.length ≤
        (fsOne.glob (json_pattern (load_all_json_files fsOne freshLoader).1)).length) := by
  exact ⟨rfl, rfl, by decide⟩

/-- C7 (amended): after a call on a loader whose dataset is empty — the
first call — the dataset length is at most the number of files that
call's glob discovered; in general a call grows the dataset by the
number of successfully parsed files on top of what was already there. -/
theorem C7_amended (fs : FS) (L : HDFSDataLoader) (h : L.data = []) :
    (load_all_json_files fs L).1.data.length ≤ (fs.glob (json_pattern L)).length := by
  rw [load_loader_data, load_all_data fs L, h]
  simp only [List.nil_append]
  exact List.length_filterMap_le _ _

/-- C7 witness: the amended bound instantiated on the single-file tree. -/
theorem C7_witness :
    (load_all_json_files fsOne freshLoader).1.data.length ≤
      (fsOne.glob (json_pattern freshLoader)).length :=
  C7_amended fsOne freshLoader rfl

lemma get_stats_result (fs : FS) (L : HDFSDataLoader) :
    (get_statistics fs L).2.2 = statsOf ((get_statistics fs L).1.data) := by
  unfold get_statistics
  split <;> rfl

/-- C9: the claim says get_statistics reports the dataset's column names;
the code reports the keys of the first record only.  On a dataset of two
records with keys a and b, the reported column list is ["a"] while the
dataset's tabular column set — the union the exporter builds — is
["a", "b"]. -/
theorem C9_counterexample :
    (hetLoader.data.mapM asRecord) = some [[("a", Json.null)], [("b", Json.null)]] ∧
    ((get_statistics fsOne hetLoader).2.2.map Stats.columns) = Except.ok ["a"] ∧
    unionKeys [[("a", Json.null)], [("b", Json.null)]] = ["a", "b"] ∧
    (["a"] : List String) ≠ ["a", "b"] := by
  exact ⟨rfl, rfl, by decide, by decide⟩

/-- C9 (amended): get_statistics triggers a full load when no data has
been loaded yet (printing a notice first); its result reports the record
count, the keys of the first record as the column list — equal to the
dataset's column names only when every record shares the first record's
keys — and the summed serialized size scaled to megabytes; on an empty
dataset the reported column list is empty. -/
theorem C9_amended (fs : FS) (L : HDFSDataLoader) :
    (L.data = [] →
       (get_statistics fs L).1 = (load_all_json_files fs L).1 ∧
       (get_statistics fs L).2.1.head? = some "No data loaded. Loading data first...") ∧
    ((get_statistics fs L).1.data = [] →
       (get_statistics fs L).2.2 = Except.ok ⟨0, [], 0⟩) ∧
    (∀ kvs rest, (get_statistics fs L).1.data = Json.obj kvs :: rest →
       (get_statistics fs L).2.2 =
         Except.ok ⟨(Json.obj kvs :: rest).length, kvs.map Prod.fst,
           (((Json.obj kvs :: rest).map (fun r => ((dumps r).length : ℚ))).sum) /
             (1024 * 1024)⟩) := by
  refine ⟨fun h => ?_, fun h => ?_, fun kvs rest h => ?_⟩
  · constructor <;> simp [get_statistics, h]
  · rw [get_stats_result, h]; rfl
  · rw [get_stats_result, h]; rfl

/-- C9 witness: the amended statement instantiated on a fresh loader
(load triggered) and implicitly exercising the statistics shape. -/
theorem C9_witness :
    (get_statistics fsOne freshLoader).1 = (load_all_json_files fsOne freshLoader).1 ∧
    (get_statistics fsOne freshLoader).2.1.head? =
      some "No data loaded. Loading data first..." :=
  (C9_amended fsOne freshLoader).1 rfl

lemma mem_insertKey (acc : List String) (a k : String) :
    k ∈ insertKey acc a ↔ k ∈ acc ∨ k = a := by
  unfold insertKey
  by_cases hmem : a ∈ acc
  · rw [if_pos hmem]
    constructor
    · exact fun hk => Or.inl hk
    · rintro (hk | rfl)
      · exact hk
      · exact hmem
  · rw [if_neg hmem]
    simp [List.mem_append]

lemma mem_foldl_insertKey (ks : List String) :
    ∀ (acc : List String) (k : String),
      k ∈ ks.foldl insertKey acc ↔ k ∈ acc ∨ k ∈ ks := by
  induction ks with
  | nil => simp
  | cons a ks ih =>
    intro acc k
    simp only [List.foldl_cons]
    rw [ih, mem_insertKey, List.mem_cons]
    tauto

lemma mem_unionKeys (rs : List Record) (k : String) :
    k ∈ unionKeys rs ↔ ∃ r ∈ rs, k ∈ recordKeys r := by
  suffices h : ∀ acc,
      (k ∈ rs.foldl (fun acc r => (recordKeys r).foldl insertKey acc) acc ↔
        k ∈ acc ∨ ∃ r ∈ rs, k ∈ recordKeys r) by
    simpa [unionKeys] using h []
  induction rs with
  | nil => simp
  | cons r rs ih =>
    intro acc
    simp only [List.foldl_cons]
    rw [ih, mem_foldl_insertKey]
    constructor
    · rintro ((h | h) | ⟨s, hs, hk⟩)
      · exact Or.inl h
      · exact Or.inr ⟨r, List.mem_cons_self _ _, h⟩
      · exact Or.inr ⟨s, List.mem_cons_of_mem _ hs, hk⟩
    · rintro (h | ⟨s, hs, hk⟩)
      · exact Or.inl (Or.inl h)
      · rcases List.mem_cons.mp hs with rfl | hs
        · exact Or.inl (Or.inr hk)
        · exact Or.inr ⟨s, hs, hk⟩

lemma lookup_eq_none_of_not_mem (r : Record) (k : String) (h : k ∉ recordKeys r) :
    List.lookup k r = none := by
  induction r with
  | nil => rfl
  | cons kv r ih =>
    obtain ⟨a, v⟩ := kv
    rw [show recordKeys ((a, v) :: r) = a :: recordKeys r from rfl, List.mem_cons] at h
    push_neg at h
    cases hbe : (k == a) with
    | true => exact absurd (eq_of_beq hbe) h.1
    | false => simp [List.lookup, hbe, ih h.2]

/-- C5: the tabular column set pd.DataFrame builds is exactly the union
of keys across the loaded records, the rows are the records aligned to
those columns, and any record missing a key gets a NaN cell in that
key's column position. -/
theorem C5_columns_union (rs : List Record) (k : String) :
    (k ∈ (toDataFrame rs).columns ↔ ∃ r ∈ rs, k ∈ recordKeys r) ∧
    ((toDataFrame rs).rows = rs.map (rowOf (toDataFrame rs).columns)) ∧
    (∀ r ∈ rs, k ∉ recordKeys r → ∀ i : Nat,
       (toDataFrame rs).columns.get? i = some k →
       (rowOf (toDataFrame rs).columns r).get? i = some Cell.nan) := by
  refine ⟨mem_unionKeys rs k, rfl, fun r hr hk i hi => ?_⟩
  unfold rowOf
  rw [List.get?_map, hi]
  simp [lookup_eq_none_of_not_mem r k hk]

/-- C5 witness: on two one-key records the second column comes from the
second record only, and the first record's row holds NaN there. -/
theorem C5_witness :
    ("b" ∈ (toDataFrame rsHet).columns ↔ ∃ r ∈ rsHet, "b" ∈ recordKeys r) ∧
    (rowOf (toDataFrame rsHet).columns [("a", Json.int 1)]).get? 1 = some Cell.nan := by
  refine ⟨(C5_columns_union rsHet "b").1, ?_⟩
  exact (C5_columns_union rsHet "b").2.2 [("a", Json.int 1)] (List.mem_cons_self _ _)
    (by decide) 1 (by rfl)

lemma applyRow_get? (k : String) :
    ∀ (cs : List String) (xs : List Cell) (i : Nat) (c : String),
      cs.get? i = some c →
      (applyRow k cs xs).get? i =
        (xs.get? i).map (fun x => if c = k then stringifyCell x else x) := by
  intro cs
  induction cs with
  | nil => intro xs i c h; simp at h
  | cons a cs ih =>
    intro xs i c h
    cases xs with
    | nil => simp [applyRow]
    | cons x xs =>
      cases i with
      | zero =>
        rw [List.get?_cons_zero] at h
        injection h with h
        subst h
        simp [applyRow]
      | succ n =>
        rw [List.get?_cons_succ] at h
        rw [show applyRow k (a :: cs) (x :: xs) =
              (if a = k then stringifyCell x else x) :: applyRow k cs xs from rfl,
            List.get?_cons_succ, List.get?_cons_succ]
        exact ih xs n c h

/-- C6: whenever main's export step succeeds, every cell of the exported
frame sitting in the similars or tags column is a string value — the
stringified form of the cell, the empty string for an empty (falsy)
nested value and the text of the NaN fill for an absent one — never a
raw nested structure. -/
theorem C6_textual_export (rs : List Record) (out : DataFrame)
    (h : mainExport (toDataFrame rs) = Except.ok out) :
    ∀ row ∈ out.rows, ∀ i : Nat,
      (out.columns.get? i = some "similars" ∨ out.columns.get? i = some "tags") →
      ∃ s, row.get? i = some (Cell.val (Json.str s)) := by
  have hout : out = applyStringify (applyStringify (toDataFrame rs) "similars") "tags" := by
    unfold mainExport at h
    by_cases h1 : "similars" ∈ (toDataFrame rs).columns
    · by_cases h2 : "tags" ∈ (toDataFrame rs).columns
      · rw [if_pos h1, if_pos h2] at h
        exact (Except.ok.inj h).symm
      · rw [if_pos h1, if_neg h2] at h
        exact Except.noConfusion h
    · rw [if_neg h1] at h
      exact Except.noConfusion h
  subst hout
  intro row hrow i hcol
  have hcols : (applyStringify (applyStringify (toDataFrame rs) "similars") "tags").columns =
      (toDataFrame rs).columns := rfl
  rw [hcols] at hcol
  have hrows : (applyStringify (applyStringify (toDataFrame rs) "similars") "tags").rows =
      ((toDataFrame rs).rows.map
        (applyRow "similars" (toDataFrame rs).columns)).map
        (applyRow "tags" (toDataFrame rs).columns) := rfl
  rw [hrows] at hrow
  rcases List.mem_map.mp hrow with ⟨mid, hmid, rfl⟩
  rcases List.mem_map.mp hmid with ⟨row0, hrow0, rfl⟩
  have hsome : ∀ c : String, (toDataFrame rs).columns.get? i = some c →
      ∃ x, row0.get? i = some x := by
    intro c hc
    have hlen : (toDataFrame rs).columns.length = row0.length := by
      rcases List.mem_map.mp (show row0 ∈ rs.map (rowOf (toDataFrame rs).columns) from hrow0)
        with ⟨r, _, rfl⟩
      exact (List.length_map _ _).symm
    have hi : i < row0.length := by
      rw [← hlen]
      exact List.get?_eq_some.mp hc |>.1 |> (fun hlt => hlt)
    rcases List.get?_eq_some.mpr ⟨hi, rfl⟩ with _
    exact ⟨row0.get ⟨i, hi⟩, List.get?_eq_some.mpr ⟨hi, rfl⟩⟩
  rcases hcol with hc | hc
  · obtain ⟨x, hx⟩ := hsome "similars" hc
    have h1 : (applyRow "similars" (toDataFrame rs).columns row0).get? i =
        some (stringifyCell x) := by
      rw [applyRow_get? "similars" _ _ i "similars" hc, hx]
      simp
    have h2 : (applyRow "tags" (toDataFrame rs).columns
        (applyRow "similars" (toDataFrame rs).columns row0)).get? i =
        some (stringifyCell x) := by
      rw [applyRow_get? "tags" _ _ i "similars" hc, h1]
      simp
    exact ⟨if cellTruthy x then cellPyStr x else "", h2⟩
  · obtain ⟨x, hx⟩ := hsome "tags" hc
    have h1 : (applyRow "similars" (toDataFrame rs).columns row0).get? i = some x := by
      rw [applyRow_get? "similars" _ _ i "tags" hc, hx]
      simp
    have h2 : (applyRow "tags" (toDataFrame rs).columns
        (applyRow "similars" (toDataFrame rs).columns row0)).get? i =
        some (stringifyCell x) := by
      rw [applyRow_get? "tags" _ _ i "tags" hc, h1]
      simp
    exact ⟨if cellTruthy x then cellPyStr x else "", h2⟩

/-- C6 witness: for the one-record dataset with an empty similars list
and tags list containing one tag, the exported tags cell is the string
form of the tag list. -/
theorem C6_witness :
    ∃ s, rowC6.get? 1 = some (Cell.val (Json.str s)) := by
  have h := C6_textual_export rsC6 outC6 rfl
  exact h rowC6 (List.mem_cons_self _ _) 1 (Or.inr rfl)

/-- C10: when the loaded dataset is non-empty but no record carries the
similars key (or none carries the tags key), the export step of main
fails with a missing-column KeyError instead of exporting. -/
theorem C10_missing_column (rs : List Record) (_hne : rs ≠ []) :
    ((∀ r ∈ rs, "similars" ∉ recordKeys r) →
       mainExport (toDataFrame rs) = Except.error "KeyError: \x27similars\x27") ∧
    ((∀ r ∈ rs, "tags" ∉ recordKeys r) →
       ∃ msg, mainExport (toDataFrame rs) = Except.error msg) := by
  constructor
  · intro hall
    have hnot : "similars" ∉ (toDataFrame rs).columns := by
      intro hmem
      rcases (mem_unionKeys rs "similars").mp hmem with ⟨r, hr, hk⟩
      exact hall r hr hk
    unfold mainExport
    rw [if_neg hnot]
  · intro hall
    by_cases hs : "similars" ∈ (toDataFrame rs).columns
    · have hnot : "tags" ∉ (toDataFrame rs).columns := by
        intro hmem
        rcases (mem_unionKeys rs "tags").mp hmem with ⟨r, hr, hk⟩
        exact hall r hr hk
      refine ⟨"KeyError: \x27tags\x27", ?_⟩
      unfold mainExport
      rw [if_pos hs, if_neg hnot]
    · refine ⟨"KeyError: \x27similars\x27", ?_⟩
      unfold mainExport
      rw [if_neg hs]

/-- C10 witness: a non-empty one-record dataset without the similars key
makes the export step fail with the similars KeyError. -/
theorem C10_witness :
    mainExport (toDataFrame rsNoSim) = Except.error "KeyError: \x27similars\x27" := by
  refine (C10_missing_column rsNoSim (List.cons_ne_nil _ _)).1 ?_
  intro r hr
  rw [show rsNoSim = [[("id", Json.int 1)]] from rfl, List.mem_singleton] at hr
  subst hr
  decide
